import Mathlib

/-!
# Verification of the sentinelAI analytical core

Shallow embedding of the deterministic analytical pipeline of the
sentinelAI repository (`backend/services/risk_service.py`,
`backend/services/attack_model_service.py`, `backend/services/ai_service.py`,
`backend/services/posture_service.py`), together with proofs of the
specification claims about it.

Modelling conventions:
* Python `int` scores are `Nat`/`Int` (the risk engine only adds
  non-negative weights, so `Nat` is exact there); fractional arithmetic
  (posture penalties, confidence scores) is modelled over `ℚ`; Python's
  `round` (banker's rounding) is `pyRound`.
* Python strings are Lean `String`s; the substring operator `in` is
  `substrIn`; `str.lower()` is `pyLower` (ASCII lowercasing).
* External I/O (the Groq / Gemini calls) is modelled by passing the
  parsed outcome of the call as an explicit argument: `none` stands for
  any transport or JSON-parse failure, `some v` for a successfully
  parsed value.
-/

namespace SentinelAI

/-- Banker's rounding on rationals, matching Python's built-in `round`
applied to an exact value: round half to even. -/
def pyRound (q : ℚ) : ℤ :=
  let f : ℤ := ⌊q⌋
  let r : ℚ := q - f
  if r < 1/2 then f
  else if 1/2 < r then f + 1
  else if f % 2 = 0 then f else f + 1

/-- Python `round(q, 1)`. -/
def pyRound1 (q : ℚ) : ℚ := (pyRound (q * 10) : ℚ) / 10

/-- Python `round(q, 2)`. -/
def pyRound2 (q : ℚ) : ℚ := (pyRound (q * 100) : ℚ) / 100

/-- Contiguous-sublist test on lists (used for Python's substring `in`). -/
def listHasSub (needle : List Char) : List Char → Bool
  | [] => needle.isEmpty
  | c :: cs => needle.isPrefixOf (c :: cs) || listHasSub needle cs

/-- Python's substring test `needle in hay`. -/
def substrIn (needle hay : String) : Bool :=
  listHasSub needle.toList hay.toList

/-- Python's `str.lower()` (ASCII lowercasing; `String.toLower`
restated over the character list so the kernel can evaluate it). -/
def pyLower (s : String) : String :=
  String.mk (s.data.map Char.toLower)

/-- Order-preserving deduplication keeping first occurrences, as Python's
`list(dict.fromkeys(xs))`. -/
def dedupFirst : List String → List String
  | [] => []
  | x :: xs => x :: dedupFirst (xs.filter (fun y => y ≠ x))
termination_by l => l.length
decreasing_by
  simp only [List.length_cons]
  exact Nat.lt_succ_of_le (List.length_filter_le _ _)

/-! ## `risk_service.py` — four-layer deterministic risk scoring -/

/-- `SENSITIVE_PORTS`: weight and label per sensitive port
(`risk_service.py`). -/
def SENSITIVE_PORTS (port : ℕ) : Option (ℕ × String) :=
  if port = 22 then some (30, "SSH — remote access service")
  else if port = 3389 then some (35, "RDP — remote desktop service")
  else if port = 3306 then some (35, "MySQL — database service")
  else if port = 27017 then some (35, "MongoDB — database service")
  else if port = 5432 then some (30, "PostgreSQL — database service")
  else if port = 6379 then some (30, "Redis — in-memory data store")
  else if port = 21 then some (25, "FTP — file transfer service")
  else if port = 25 then some (15, "SMTP — mail service")
  else if port = 8080 then some (10, "HTTP-Alt — alternate web service")
  else if port = 8443 then some (8, "HTTPS-Alt — alternate secure web service")
  else none

/-- `WEB_PORTS = {80, 443}`. -/
def isWebPort (p : ℕ) : Bool := p = 80 || p = 443

/-- `HIGH_RISK_PORT_THRESHOLD = 25`. -/
def HIGH_RISK_PORT_THRESHOLD : ℕ := 25

/-- `ENV_KEYWORDS` of `risk_service.py` (ordered; first match wins). -/
def ENV_KEYWORDS : List String :=
  ["dev", "staging", "test", "old", "beta", "internal", "admin", "backup", "uat", "demo"]

/-- `ADMIN_KEYWORDS` of `risk_service.py` (ordered; first match wins). -/
def ADMIN_KEYWORDS : List String := ["admin", "portal", "dashboard", "manage"]

/-- `_classify_severity` of `risk_service.py`. -/
def classify_severity (score : ℕ) : String :=
  if score ≥ 70 then "Critical"
  else if score ≥ 50 then "High"
  else if score ≥ 30 then "Medium"
  else if score ≥ 10 then "Low"
  else "Informational"

/-- The sentinel factor used when no risk factor fired. -/
def noFactorSentinel : String := "No notable risk factors identified"

/-- Evidence line `f"Port {port} open ({label})"`. -/
def portFactor (port : ℕ) (label : String) : String :=
  "Port " ++ toString port ++ " open (" ++ label ++ ")"

/-- Evidence line for the first environment keyword match. -/
def envFactor (kw : String) : String :=
  "Sensitive lifecycle environment exposed ('" ++ kw ++ "' in subdomain)"

/-- Evidence line for the first admin keyword match. -/
def adminFactor (kw : String) : String :=
  "Administrative interface potentially exposed ('" ++ kw ++ "' in subdomain)"

/-- Evidence line for the service-density modifier. -/
def densityFactor (port_count : ℕ) : String :=
  "Multiple services exposed on single host (" ++ toString port_count ++ " ports)"

/-- Evidence line for the shared-infrastructure modifier. -/
def sharedFactor (ip_frequency : ℕ) : String :=
  "Infrastructure consolidation increases blast radius (" ++ toString ip_frequency
    ++ " subdomains on this IP)"

/-- Evidence line of compound interaction 1. -/
def compound1Factor : String := "High-risk service exposed within sensitive environment"

/-- Evidence line of compound interaction 2. -/
def compound2Factor : String := "Administrative surface combined with service exposure"

/-- The Layer-1 sensitive-port scan of `calculate_risk`: total weight,
emitted evidence lines (in port order) and the `has_high_risk_port` flag. -/
def scanSensitivePorts : List ℕ → ℕ × List String × Bool
  | [] => (0, [], false)
  | p :: ps =>
    let (s, fs, hh) := scanSensitivePorts ps
    match SENSITIVE_PORTS p with
    | some (w, label) =>
        (w + s, portFactor p label :: fs,
         (decide (w ≥ HIGH_RISK_PORT_THRESHOLD) || hh))
    | none => (s, fs, hh)

/-- Layers 1–3 of `calculate_risk`: the accumulated (unclamped) score
and the emitted evidence lines, in emission order. -/
def calculate_risk_core (subdomain : String) (open_ports : List ℕ)
    (ip_frequency : ℕ) : ℕ × List String :=
  let subdomain_lower := pyLower subdomain
  -- Layer 1: baseline for any open ports
  let baseScore : ℕ := if open_ports.isEmpty then 0 else 2
  -- Layer 1: sensitive-port scoring
  let sp := scanSensitivePorts open_ports
  let has_high_risk_port := sp.2.2
  -- Layer 1: standard web ports, +3 each capped at +6
  let web_port_score : ℕ := min (3 * open_ports.countP isWebPort) 6
  -- Layer 2: environment keyword detection (first match only)
  let envKw : Option String := ENV_KEYWORDS.find? (fun kw => substrIn kw subdomain_lower)
  let envScore : ℕ := if envKw.isSome then 20 else 0
  -- Layer 2: admin surface detection (first match only, +5 instead of +25
  -- when the matched keyword is the same token that scored as env keyword)
  let adminKw : Option String := ADMIN_KEYWORDS.find? (fun kw => substrIn kw subdomain_lower)
  let adminScore : ℕ :=
    match adminKw with
    | some kw => if envKw = some kw then 5 else 25
    | none => 0
  -- Layer 2: service density modifier
  let port_count := open_ports.length
  let densityScore : ℕ := if port_count ≥ 4 then 15 else if port_count ≥ 2 then 8 else 0
  -- Layer 2: shared infrastructure modifier
  let sharedScore : ℕ := if ip_frequency > 2 then 8 else 0
  -- Layer 3: compound interactions
  let comp1 : Bool := envKw.isSome && has_high_risk_port
  let comp1Score : ℕ := if comp1 then 25 else 0
  let has_non_web_port : Bool := open_ports.any (fun p => !isWebPort p)
  let comp2 : Bool := adminKw.isSome && has_non_web_port
  let comp2Score : ℕ := if comp2 then 20 else 0
  (baseScore + sp.1 + web_port_score + envScore + adminScore
      + densityScore + sharedScore + comp1Score + comp2Score,
   sp.2.1 ++ (envKw.map envFactor).toList ++ (adminKw.map adminFactor).toList
      ++ (if port_count ≥ 2 then [densityFactor port_count] else [])
      ++ (if ip_frequency > 2 then [sharedFactor ip_frequency] else [])
      ++ (if comp1 then [compound1Factor] else [])
      ++ (if comp2 then [compound2Factor] else []))

/-- `calculate_risk` of `risk_service.py`: the 4-layer deterministic risk
scoring engine, returning `(risk_score, severity, risk_factors)`. -/
def calculate_risk (subdomain : String) (open_ports : List ℕ)
    (ip_frequency : ℕ) : ℕ × String × List String :=
  let core := calculate_risk_core subdomain open_ports ip_frequency
  -- Clamp & classify
  let score := min core.1 100
  let severity := classify_severity score
  let risk_factors := if core.2.isEmpty then [noFactorSentinel] else core.2
  (score, severity, risk_factors)

/-- An asset record as produced by the recon orchestrator and consumed by
the attack-graph and posture services.  The empty string in `ip` stands
for a falsy/absent IP. -/
structure Asset where
  subdomain : String
  ip : String
  open_ports : List ℕ
  risk_score : ℕ
  severity : String
  risk_factors : List String
deriving DecidableEq, Repr

/-- `apply_global_posture_adjustment` of `risk_service.py` (Layer 4).
The Python guard `assets_with_ports / total <= 0.5` (exact float test on
small integers) is the integer test `2 * assets_with_ports ≤ total`. -/
def apply_global_posture_adjustment (assets : List Asset) : List Asset :=
  let total := assets.length
  if total ≤ 8 then assets
  else
    let assets_with_ports := (assets.filter (fun a => !a.open_ports.isEmpty)).length
    if 2 * assets_with_ports ≤ total then assets
    else
      assets.map (fun a =>
        { a with
          risk_score := min (a.risk_score + 5) 100
          severity := classify_severity (min (a.risk_score + 5) 100)
          risk_factors := a.risk_factors ++ ["Broad public service exposure footprint"] })

/-! ## `attack_model_service.py` — deterministic attack chain builder -/

/-- `ADMIN_KEYWORDS` of `attack_model_service.py` (a set; only
membership-of-any matters). -/
def AM_ADMIN_KEYWORDS : List String :=
  ["admin", "portal", "dashboard", "manage", "panel", "console"]

/-- `ENV_KEYWORDS` of `attack_model_service.py`. -/
def AM_ENV_KEYWORDS : List String :=
  ["dev", "staging", "test", "old", "beta", "internal", "backup", "uat", "demo"]

/-- `PUBLIC_WEB_PORTS = {80, 443}`. -/
def isPublicWebPort (p : ℕ) : Bool := p = 80 || p = 443

/-- `DATABASE_PORTS = {3306, 5432, 27017, 6379}`. -/
def isDatabasePort (p : ℕ) : Bool := p = 3306 || p = 5432 || p = 27017 || p = 6379

/-- `SENTITIVE_PORT_MAP`: port → privilege-escalation technique key
(insertion order 22, 3389, 3306, 27017, 5432, 6379, 21). -/
def SENSITIVE_PORT_MAP : List (ℕ × String) :=
  [(22, "privesc_ssh"), (3389, "privesc_rdp"), (3306, "privesc_db_mysql"),
   (27017, "privesc_db_mongo"), (5432, "privesc_db_postgres"),
   (6379, "privesc_redis"), (21, "privesc_ftp")]

/-- Lookup in `SENSITIVE_PORT_MAP`. -/
def sensKeyOfPort (p : ℕ) : Option String :=
  (SENSITIVE_PORT_MAP.find? (fun e => e.1 = p)).map (·.2)

/-- `[p for p, k in SENSITIVE_PORT_MAP.items() if k == key][0]`: the port
of a technique key (the map is injective, so the first hit is unique). -/
def portOfSensKey (k : String) : ℕ :=
  ((SENSITIVE_PORT_MAP.find? (fun e => e.2 = k)).map (·.1)).getD 0

/-- `MITRE_TECHNIQUES`: technique key → (technique, mitre_id).  The
default branch is unreachable (all keys used come from the tables). -/
def MITRE_TECHNIQUES (key : String) : String × String :=
  if key = "initial_access_web" then ("Exploit Public-Facing Application", "T1190")
  else if key = "initial_access_remote" then ("External Remote Services", "T1133")
  else if key = "initial_access_admin" then ("Valid Accounts — Admin Panel Exposure", "T1078")
  else if key = "privesc_db_mysql" then ("Exploitation of Database Service (MySQL)", "T1068")
  else if key = "privesc_db_mongo" then ("Exploitation of Database Service (MongoDB)", "T1068")
  else if key = "privesc_db_postgres" then ("Exploitation of Database Service (PostgreSQL)", "T1068")
  else if key = "privesc_redis" then ("Exploitation of In-Memory Data Store (Redis)", "T1068")
  else if key = "privesc_ssh" then ("Brute Force — SSH Credential Access", "T1110.001")
  else if key = "privesc_rdp" then ("Remote Desktop Protocol Exploitation", "T1021.001")
  else if key = "privesc_ftp" then ("Exploitation via FTP Service", "T1071.002")
  else if key = "lateral_shared_infra" then ("Lateral Movement via Shared Infrastructure", "T1021")
  else if key = "lateral_admin" then ("Internal Administrative Interface Discovery", "T1087.002")
  else if key = "lateral_env" then ("Exploitation of Non-Production Environment", "T1199")
  else if key = "exfil_db" then ("Data from Information Repositories", "T1213")
  else if key = "exfil_admin_db" then ("Exfiltration via Administrative Channel", "T1041")
  else ("", "")

/-- `_is_admin_surface`. -/
def is_admin_surface (subdomain : String) : Bool :=
  AM_ADMIN_KEYWORDS.any (fun kw => substrIn kw (pyLower subdomain))

/-- `_is_env_surface`. -/
def is_env_surface (subdomain : String) : Bool :=
  AM_ENV_KEYWORDS.any (fun kw => substrIn kw (pyLower subdomain))

/-- `_has_database_ports`. -/
def has_database_ports (a : Asset) : List ℕ := a.open_ports.filter isDatabasePort

/-- `_has_sensitive_ports`: technique keys of sensitive ports, in port
order. -/
def has_sensitive_ports (a : Asset) : List String := a.open_ports.filterMap sensKeyOfPort

/-- `_has_non_web_ports`. -/
def has_non_web_ports (a : Asset) : Bool := a.open_ports.any (fun p => !isPublicWebPort p)

/-- The number of compound (Layer-3 / Layer-4) risk factors of an asset,
per `_compute_confidence`. -/
def compoundCount (a : Asset) : ℕ :=
  a.risk_factors.countP (fun f =>
    substrIn "high-risk service exposed within" (pyLower f)
    || substrIn "administrative surface combined" (pyLower f)
    || substrIn "broad public service exposure" (pyLower f))

/-- `_compute_confidence`: `round(min(risk_score/100 + 0.05*compound, 0.95), 2)`. -/
def compute_confidence (a : Asset) : ℚ :=
  pyRound2 (min ((a.risk_score : ℚ) / 100 + (compoundCount a : ℚ) * (5/100)) (95/100))

/-- One step of an attack path; `impact_detail` is the optional
LLM-added narrative field. -/
structure AttackStep where
  step : ℕ
  stage : String
  subdomain : String
  ip : String
  technique : String
  mitre_id : String
  evidence : List String
  confidence_score : ℚ
  impact_detail : Option String := none
deriving DecidableEq, Repr

/-- An attack graph; `mitigation_notes` is the optional LLM-added list. -/
structure AttackGraph where
  entry_point : Option String
  attack_path : List AttackStep
  impact_summary : String
  overall_risk : String
  mitigation_notes : Option (List String) := none
deriving DecidableEq, Repr

/-- `_classify_overall_risk`. -/
def classify_overall_risk (attack_path : List AttackStep) : String :=
  match attack_path with
  | [] => "Low"
  | s :: rest =>
    let max_confidence := rest.foldl (fun m t => max m t.confidence_score) s.confidence_score
    let step_count := attack_path.length
    if max_confidence ≥ 17/20 ∨ step_count ≥ 5 then "Critical"
    else if max_confidence ≥ 7/10 ∨ step_count ≥ 3 then "High"
    else if max_confidence ≥ 1/2 ∨ step_count ≥ 2 then "Medium"
    else "Low"

/-- A step before its global number is attached: stage, technique key,
source asset, extra evidence. -/
structure PreStep where
  stage : String
  key : String
  asset : Asset
  extra : List String
deriving DecidableEq, Repr

/-- `_make_step`, as a function of the global step number and a
`PreStep`. -/
def make_step (n : ℕ) (ps : PreStep) : AttackStep :=
  let tech := MITRE_TECHNIQUES ps.key
  { step := n
    stage := ps.stage
    subdomain := ps.asset.subdomain
    ip := ps.asset.ip
    technique := tech.1
    mitre_id := tech.2
    evidence := ps.asset.risk_factors ++ ps.extra
    confidence_score := compute_confidence ps.asset }

/-- Python's stable descending sort `candidates.sort(key=risk_score,
reverse=True)`: insertion sort over the total preorder
`b.risk_score ≤ a.risk_score` computes the same (unique stable) result. -/
def sortByScoreDesc (l : List Asset) : List Asset :=
  l.insertionSort (fun a b => b.risk_score ≤ a.risk_score)

/-- Candidate filter and sort of `build_attack_graph`. -/
def graphCandidates (assets : List Asset) (risk_threshold : ℕ) : List Asset :=
  sortByScoreDesc (assets.filter (fun a => risk_threshold ≤ a.risk_score))

/-- Occurrences of a (truthy) IP across the full asset list — the
`ip_freq` Counter. -/
def ipCount (assets : List Asset) (ip : String) : ℕ :=
  assets.countP (fun a => a.ip = ip)

/-- `ip_freq.get(ip, 1)`: absent key defaults to 1. -/
def ipFreqGet (assets : List Asset) (ip : String) : ℕ :=
  if ipCount assets ip = 0 then 1 else ipCount assets ip

/-- Stage-1 qualification: web port, sensitive (non-web) port, admin
keyword, or ≥4 open ports. -/
def stage1Qualifies (a : Asset) : Bool :=
  a.open_ports.any isPublicWebPort || a.open_ports.any (fun p => !isPublicWebPort p)
    || is_admin_surface a.subdomain || a.open_ports.length ≥ 4

/-- The first Stage-1 candidate (the Python loop `break`s after the
first hit). -/
def stage1Pick (candidates : List Asset) : Option Asset :=
  candidates.find? stage1Qualifies

/-- The Stage-1 `PreStep` for the picked asset. -/
def stage1Pre (a : Asset) : PreStep :=
  let ports := a.open_ports
  let is_web := ports.any isPublicWebPort
  let has_sensitive := ports.any (fun p => !isPublicWebPort p)
  let is_admin := is_admin_surface a.subdomain
  let tech_key :=
    if is_admin && has_sensitive then "initial_access_admin"
    else if has_sensitive && !is_web then "initial_access_remote"
    else "initial_access_web"
  -- `len(ports)` in the density evidence is the length of the Python
  -- *set* of ports, hence the deduplicated count.
  let extra :=
    if ports.length ≥ 4 then
      ["High service density (" ++ toString ports.dedup.length ++ " ports exposed)"]
    else []
  { stage := "Initial Access", key := tech_key, asset := a, extra := extra }

/-- Stage-2 inner loop over one asset's technique keys, threading the
global `seen_privesc_techniques` set. -/
def stage2Keys (a : Asset) : List String → List String → List PreStep × List String
  | [], seen => ([], seen)
  | k :: ks, seen =>
    if k ∈ seen then stage2Keys a ks seen
    else
      let r := stage2Keys a ks (k :: seen)
      ({ stage := "Privilege Escalation", key := k, asset := a,
         extra := ["Port " ++ toString (portOfSensKey k)
           ++ " directly accessible from external network"] } :: r.1, r.2)

/-- Stage-2 outer loop over the candidates. -/
def stage2Go : List Asset → List String → List PreStep
  | [], _ => []
  | a :: rest, seen =>
    let r := stage2Keys a (has_sensitive_ports a) seen
    r.1 ++ stage2Go rest r.2

/-- Stage 3a: the first candidate with a truthy IP shared by more than
two assets (the loop `break`s at the first emission, so the
`shared_ips_processed` set never affects the choice). -/
def stage3aPick (assets candidates : List Asset) : Option Asset :=
  candidates.find? (fun a => a.ip ≠ "" && ipFreqGet assets a.ip > 2)

/-- The Stage-3a `PreStep`. -/
def stage3aPre (assets : List Asset) (a : Asset) : PreStep :=
  { stage := "Lateral Movement", key := "lateral_shared_infra", asset := a,
    extra := [toString (ipFreqGet assets a.ip) ++ " subdomains share IP " ++ a.ip
      ++ " — blast radius amplified"] }

/-- The Stage-3b (admin pivot) `PreStep`; no extra evidence. -/
def stage3bPre (a : Asset) : PreStep :=
  { stage := "Lateral Movement", key := "lateral_admin", asset := a, extra := [] }

/-- The Stage-3c (non-production pivot) `PreStep`; no extra evidence. -/
def stage3cPre (a : Asset) : PreStep :=
  { stage := "Lateral Movement", key := "lateral_env", asset := a, extra := [] }

/-- Stage 4: the first candidate with a database port, and its
`PreStep`. -/
def stage4Pre (a : Asset) : PreStep :=
  let db_ports := has_database_ports a
  if is_admin_surface a.subdomain && has_non_web_ports a then
    { stage := "Data Exfiltration", key := "exfil_admin_db", asset := a,
      extra := ["Database port(s) " ++ toString db_ports ++ " exposed alongside admin interface",
                "Admin + database combination enables direct data exfiltration"] }
  else
    { stage := "Data Exfiltration", key := "exfil_db", asset := a,
      extra := ["Database port(s) " ++ toString db_ports ++ " externally accessible"] }

/-- The whole pre-step sequence of `build_attack_graph` for a non-empty
candidate list, in emission order, together with the Stage-1 pick
(needed for the entry point). -/
def graphPreSteps (assets candidates : List Asset) : List PreStep :=
  let p1 := stage1Pick candidates
  let used1 : List String := match p1 with | some a => [a.subdomain] | none => []
  let s2 := stage2Go candidates []
  let used2 := used1 ++ s2.map (fun ps => ps.asset.subdomain)
  let p3a := stage3aPick assets candidates
  let used3a := used2 ++ (match p3a with | some a => [a.subdomain] | none => [])
  let p3b := candidates.find? (fun a =>
    !used3a.contains a.subdomain && is_admin_surface a.subdomain)
  let used3b := used3a ++ (match p3b with | some a => [a.subdomain] | none => [])
  let p3c := candidates.find? (fun a =>
    !used3b.contains a.subdomain && is_env_surface a.subdomain
      && !is_admin_surface a.subdomain)
  let p4 := candidates.find? (fun a => !(has_database_ports a).isEmpty)
  (p1.map stage1Pre).toList
    ++ s2
    ++ (p3a.map (stage3aPre assets)).toList
    ++ (p3b.map stage3bPre).toList
    ++ (p3c.map stage3cPre).toList
    ++ (p4.map stage4Pre).toList

/-- `build_attack_graph` of `attack_model_service.py`. -/
def build_attack_graph (domain : String) (assets : List Asset)
    (risk_threshold : ℕ := 30) : AttackGraph :=
  match graphCandidates assets risk_threshold with
  | [] =>
    { entry_point := none
      attack_path := []
      impact_summary := "No viable attack path identified based on current exposure."
      overall_risk := "Low" }
  | c0 :: rest =>
    let candidates := c0 :: rest
    let pres := graphPreSteps assets candidates
    -- each Python `step_num += 1; append` numbers steps 1, 2, ….
    let attack_path := pres.enum.map (fun e => make_step (e.1 + 1) e.2)
    let entry_point : Option String :=
      match stage1Pick candidates with
      | some a => some a.subdomain
      | none => some c0.subdomain  -- entry-point fallback: best candidate
    let overall_risk := classify_overall_risk attack_path
    let stages_hit := dedupFirst (attack_path.map (·.stage))
    let impact_summary :=
      "Analysis of " ++ domain ++ " identified " ++ toString candidates.length
        ++ " asset(s) with elevated risk (score >= " ++ toString risk_threshold
        ++ "). Peak risk score: " ++ toString c0.risk_score ++ ". A "
        ++ toString attack_path.length ++ "-step attack chain spanning "
        ++ (if stages_hit.isEmpty then "no" else String.intercalate ", " stages_hit)
        ++ " stage(s) was constructed."
    { entry_point := entry_point
      attack_path := attack_path
      impact_summary := impact_summary
      overall_risk := overall_risk }

/-! ## `ai_service.py` — LLM merge for the attack simulation -/

/-- JSON values, as produced by Python's `json.loads`. -/
inductive Json where
  | null
  | bool (b : Bool)
  | num (q : ℚ)
  | str (s : String)
  | arr (l : List Json)
  | obj (kvs : List (String × Json))

/-- Dictionary lookup on a JSON object (`json.loads` keeps the *last*
duplicate key, hence the reversed search). Non-objects have no keys. -/
def Json.get (j : Json) (k : String) : Option Json :=
  match j with
  | Json.obj kvs => (kvs.reverse.find? (fun e => e.1 = k)).map (·.2)
  | _ => none

/-- Python `==` between the base step's `int` step number and an
arbitrary JSON value: ints and floats compare numerically, `bool` is an
int subtype (`True == 1`), everything else compares unequal. -/
def jsonEqNat (n : ℕ) (v : Json) : Bool :=
  match v with
  | Json.num q => q = (n : ℚ)
  | Json.bool b => (if b then (1 : ℚ) else 0) = (n : ℚ)
  | _ => false

/-- The inner loop of the step merge: find the first base step whose
`step` equals the AI step number and (only) set its `impact_detail`. -/
def setImpactDetail (stepVal : Json) (detail : Option String) :
    List AttackStep → List AttackStep
  | [] => []
  | s :: rest =>
    if jsonEqNat s.step stepVal then
      (match detail with
       | some d => { s with impact_detail := some d }
       | none => s) :: rest
    else s :: setImpactDetail stepVal detail rest

/-- The loop over the AI-returned `attack_path` entries: non-dicts and
dicts without a `"step"` key are skipped; otherwise the matching base
step (if any) receives the AI `impact_detail` when it is a string. -/
def applyAISteps (aiSteps : List Json) (path : List AttackStep) : List AttackStep :=
  aiSteps.foldl (fun acc ai =>
    match ai with
    | Json.obj _ =>
      match ai.get "step" with
      | some stepVal =>
        let detail : Option String :=
          match ai.get "impact_detail" with
          | some (Json.str d) => some d
          | _ => none
        setImpactDetail stepVal detail acc
      | none => acc
    | _ => acc) path

/-- `if "impact_summary" in parsed and isinstance(..., str)`: apply the
AI-enhanced impact summary. -/
def applyImpactSummary (j : Json) (g : AttackGraph) : AttackGraph :=
  match j.get "impact_summary" with
  | some (Json.str s) => { g with impact_summary := s }
  | _ => g

/-- `if "mitigation_notes" in parsed and isinstance(..., list)`: apply
the AI mitigation notes, keeping only non-blank strings. -/
def applyMitigationNotes (j : Json) (g : AttackGraph) : AttackGraph :=
  match j.get "mitigation_notes" with
  | some (Json.arr l) =>
    { g with mitigation_notes := some (l.filterMap (fun n =>
        match n with
        | Json.str s => if s.trim ≠ "" then some s else none
        | _ => none)) }
  | _ => g

/-- `if "attack_path" in parsed and isinstance(..., list)`: merge the AI
per-step impact details. -/
def applyPathDetails (j : Json) (g : AttackGraph) : AttackGraph :=
  match j.get "attack_path" with
  | some (Json.arr l) => { g with attack_path := applyAISteps l g.attack_path }
  | _ => g

/-- `if "overall_risk" in parsed and parsed["overall_risk"] in {...}`:
apply a valid AI overall risk. -/
def applyOverallRisk (j : Json) (g : AttackGraph) : AttackGraph :=
  match j.get "overall_risk" with
  | some (Json.str s) =>
    if s = "Low" ∨ s = "Medium" ∨ s = "High" ∨ s = "Critical" then
      { g with overall_risk := s }
    else g
  | _ => g

/-- `_parse_simulation_enhancement` of `ai_service.py`, as a function of
the parsed LLM output: `none` is a JSON-decode failure (the `except`
branch returns the untouched deep copy), `some j` an arbitrary JSON
value.  When `j` is not an object, every Python path (falsy membership
tests, or a `TypeError` caught by the handler) also returns the
untouched copy. -/
def parse_simulation_enhancement (parsed : Option Json) (base : AttackGraph) :
    AttackGraph :=
  match parsed with
  | none => base
  | some j =>
    match j with
    | Json.obj _ =>
      applyOverallRisk j (applyPathDetails j (applyMitigationNotes j
        (applyImpactSummary j base)))
    | _ => base

/-- Forget the (LLM-owned) `impact_detail` of a step, keeping the eight
structural fields `step, stage, subdomain, ip, technique, mitre_id,
evidence, confidence_score`. -/
def stripDetail (s : AttackStep) : AttackStep := { s with impact_detail := none }

/-! ## `posture_service.py` — organizational posture intelligence -/

/-- The organizational pattern metrics built by
`_preprocess_posture_data`.  The severity breakdown is kept as the five
counts the weighted formula reads; `env_exposure` / `admin_exposure`
keep only the lengths of the (truncated-to-5) keyword-exposure lists,
which is all downstream code reads. -/
structure PostureData where
  domain : String
  total_assets : ℕ
  low_risk_count : ℕ
  medium_risk_count : ℕ
  high_risk_count : ℕ
  critical_risk_count : ℕ
  average_risk_score : ℚ
  peak_risk_score : ℕ
  countCritical : ℕ
  countHigh : ℕ
  countMedium : ℕ
  countLow : ℕ
  countInformational : ℕ
  unique_ips : ℕ
  shared_ip_count : ℕ
  max_assets_per_ip : ℕ
  env_exposure_count : ℕ
  admin_exposure_count : ℕ
  average_ports_per_asset : ℚ
  max_ports_on_single_asset : ℕ
  assets_with_no_ports : ℕ
  data_completeness : String
deriving DecidableEq, Repr

/-- The distinct truthy IPs of an asset list (keys of the `ip_freq`
Counter). -/
def distinctIps (assets : List Asset) : List String :=
  ((assets.map (·.ip)).filter (fun ip => ip ≠ "")).dedup

/-- `_preprocess_posture_data` of `posture_service.py`. -/
def preprocess_posture_data (domain : String) (assets : List Asset) : PostureData :=
  let total := assets.length
  if total = 0 then
    { domain := domain, total_assets := 0, low_risk_count := 0, medium_risk_count := 0,
      high_risk_count := 0, critical_risk_count := 0, average_risk_score := 0,
      peak_risk_score := 0, countCritical := 0, countHigh := 0, countMedium := 0,
      countLow := 0, countInformational := 0, unique_ips := 0, shared_ip_count := 0,
      max_assets_per_ip := 0, env_exposure_count := 0, admin_exposure_count := 0,
      average_ports_per_asset := 0, max_ports_on_single_asset := 0,
      assets_with_no_ports := 0, data_completeness := "minimal" }
  else
    let risk_scores : List ℕ := assets.map (·.risk_score)
    let ips := distinctIps assets
    let port_counts : List ℕ := assets.map (fun a => a.open_ports.length)
    let has_ports := assets.countP (fun a => !a.open_ports.isEmpty)
    { domain := domain
      total_assets := total
      low_risk_count := risk_scores.countP (fun s => s < 30)
      medium_risk_count := risk_scores.countP (fun s => 30 ≤ s && s < 60)
      high_risk_count := risk_scores.countP (fun s => 60 ≤ s && s < 80)
      critical_risk_count := risk_scores.countP (fun s => 80 ≤ s)
      average_risk_score := pyRound1 ((risk_scores.sum : ℚ) / total)
      peak_risk_score := risk_scores.foldl max 0
      countCritical := assets.countP (fun a => a.severity = "Critical")
      countHigh := assets.countP (fun a => a.severity = "High")
      countMedium := assets.countP (fun a => a.severity = "Medium")
      countLow := assets.countP (fun a => a.severity = "Low")
      countInformational := assets.countP (fun a => a.severity = "Informational")
      unique_ips := ips.length
      shared_ip_count := (ips.filter (fun ip => ipCount assets ip > 1)).length
      max_assets_per_ip := (ips.map (ipCount assets)).foldl max 0
      env_exposure_count :=
        min (assets.countP (fun a =>
          AM_ENV_KEYWORDS.any (fun kw => substrIn kw (pyLower a.subdomain)))) 5
      admin_exposure_count :=
        min (assets.countP (fun a =>
          AM_ADMIN_KEYWORDS.any (fun kw => substrIn kw (pyLower a.subdomain)))) 5
      average_ports_per_asset := pyRound1 ((port_counts.sum : ℚ) / total)
      max_ports_on_single_asset := port_counts.foldl max 0
      assets_with_no_ports := port_counts.countP (fun c => c = 0)
      data_completeness :=
        if 2 * has_ports > total then "comprehensive"
        else if has_ports > 0 then "moderate" else "minimal" }

/-- `_calculate_deterministic_posture_score`: the weighted deterministic
posture score anchor, an integer in `[0, 100]`. -/
def calculate_deterministic_posture_score (pd : PostureData) : ℤ :=
  if pd.total_assets = 0 then 85
  else
    let weighted_sum : ℚ := (pd.countCritical : ℚ) * 1 + (pd.countHigh : ℚ) * (7/10)
      + (pd.countMedium : ℚ) * (2/5) + (pd.countLow : ℚ) * (3/20)
      + (pd.countInformational : ℚ) * 0
    let severity_penalty : ℚ := weighted_sum / (pd.total_assets : ℚ) * 60
    let concentration_penalty : ℚ :=
      min ((pd.shared_ip_count : ℚ) * 2 + ((pd.max_assets_per_ip : ℚ) - 1) * (3/2)) 15
    let avg_ports := pd.average_ports_per_asset
    let density_penalty : ℚ := if avg_ports > 3/2 then min (avg_ports * (3/2)) 10 else 0
    let score := 100 - severity_penalty - concentration_penalty - density_penalty
    max 0 (min 100 (pyRound score))

/-- `_determine_maturity`: maturity level with the critical-asset
ceiling. -/
def determine_maturity (posture_score : ℤ) (pd : PostureData) : String :=
  if pd.critical_risk_count > 0 then
    if posture_score ≥ 30 then "Developing" else "Basic"
  else if posture_score ≥ 75 then "Advanced"
  else if posture_score ≥ 55 then "Intermediate"
  else if posture_score ≥ 30 then "Developing"
  else "Basic"

/-- A schema-shaped Gemini posture payload: the eight required keys with
well-typed values (payloads with missing keys or wrong basic types are
rejected by `_validate_posture_schema` exactly like parse failures and
are folded into the `none` LLM outcome). -/
structure PostureLLM where
  posture_score : ℚ
  maturity_level : String
  dominant_risk_theme : String
  likely_attacker_profile : String
  strategic_risk_outlook : String
  priority_improvements : List String
  assessment_basis : List String
  confidence_score : ℚ
deriving DecidableEq, Repr

/-- The value-range part of `_validate_posture_schema`. -/
def validate_posture_schema (p : PostureLLM) : Bool :=
  (0 ≤ p.posture_score && p.posture_score ≤ 100)
  && (p.maturity_level = "Basic" || p.maturity_level = "Developing"
      || p.maturity_level = "Intermediate" || p.maturity_level = "Advanced")
  && (p.likely_attacker_profile = "Opportunistic" || p.likely_attacker_profile = "Targeted"
      || p.likely_attacker_profile = "Advanced Persistent"
      || p.likely_attacker_profile = "Automated Scanners")
  && p.priority_improvements.length ≥ 1
  && p.assessment_basis.length ≥ 1
  && (0 ≤ p.confidence_score && p.confidence_score ≤ 1)

/-- The final posture report (`posture_score` has been rounded to an
int, `confidence_score` to two decimals). -/
structure PostureReport where
  posture_score : ℤ
  maturity_level : String
  dominant_risk_theme : String
  likely_attacker_profile : String
  strategic_risk_outlook : String
  priority_improvements : List String
  assessment_basis : List String
  confidence_score : ℚ
deriving DecidableEq, Repr

/-- `_enforce_scoring_rules` of `posture_service.py`.  The Python float
test `(high + critical) / total > 0.4` is `5 * (high + critical) >
2 * total` over the integers. -/
def enforce_scoring_rules (result : PostureLLM) (pd : PostureData) : PostureReport :=
  let critical := pd.critical_risk_count
  let high := pd.high_risk_count
  let low_risk := pd.low_risk_count
  let det_score := calculate_deterministic_posture_score pd
  let score0 : ℚ := result.posture_score
  -- clamp within ±10 of the deterministic anchor
  let score1 : ℚ := max ((det_score : ℚ) - 10) (min ((det_score : ℚ) + 10) score0)
  -- Rule 1: critical assets → hard ceiling (the `maturity_level`
  -- assignment here is overwritten below by `_determine_maturity`)
  let score2 : ℚ := if critical > 0 then min score1 45 else score1
  -- Rule 2: high-severity concentration → ceiling
  let score3 : ℚ :=
    if pd.total_assets > 0 ∧ 5 * (high + critical) > 2 * pd.total_assets
    then min score2 55 else score2
  -- Rule 3: no significant risk → floor (`maturity` set to Advanced is
  -- likewise overwritten below when critical = 0 and the score is ≥ 75)
  let score4 : ℚ := if pd.total_assets > 0 ∧ low_risk = pd.total_assets
    then max score3 75 else score3
  let posture_score : ℤ := max 0 (min 100 (pyRound score4))
  let maturity := determine_maturity posture_score pd
  let conf0 := result.confidence_score
  let conf1 : ℚ :=
    if pd.data_completeness = "comprehensive" ∧ pd.total_assets ≥ 5 then max conf0 (3/4)
    else if pd.data_completeness = "minimal" ∨ pd.total_assets < 3 then min conf0 (11/20)
    else conf0
  { posture_score := posture_score
    maturity_level := maturity
    dominant_risk_theme := result.dominant_risk_theme
    likely_attacker_profile := result.likely_attacker_profile
    strategic_risk_outlook := result.strategic_risk_outlook
    priority_improvements := result.priority_improvements
    assessment_basis := result.assessment_basis
    confidence_score := pyRound2 conf1 }

/-- `_build_deterministic_fallback` of `posture_service.py`.  The
numeric and dict formatting inside the `assessment_basis` strings is
approximated by Lean's `toString`; no claim depends on their text. -/
def build_deterministic_fallback (domain : String) (pd : PostureData) : PostureReport :=
  let total := pd.total_assets
  let avg := pd.average_risk_score
  let critical := pd.critical_risk_count
  let high := pd.high_risk_count
  let score := calculate_deterministic_posture_score pd
  let maturity := determine_maturity score pd
  let attacker :=
    if critical > 0 then "Targeted"
    else if high ≥ 2 then "Opportunistic"
    else "Automated Scanners"
  let env_count := pd.env_exposure_count
  let admin_count := pd.admin_exposure_count
  let theme :=
    if admin_count > 0 ∧ high + critical > 0 then
      "Administrative surface compounded by exposed services"
    else if admin_count > 0 then "Administrative interface exposure"
    else if env_count > 0 then "Non-production environment exposure"
    else if high + critical > 0 then "Elevated service exposure"
    else "Standard web service footprint"
  let improvements : List String :=
    (if admin_count > 0 then ["Restrict administrative interfaces from public access"] else [])
    ++ (if env_count > 0 then
          ["Isolate non-production environments behind VPN or allowlists"] else [])
    ++ (if high + critical > 0 then
          ["Remediate high-severity assets through port restriction and access controls"]
        else [])
  let improvements := if improvements.isEmpty
    then ["Maintain current posture with periodic reassessment"] else improvements
  let completeness := pd.data_completeness
  { posture_score := score
    maturity_level := maturity
    dominant_risk_theme := theme
    likely_attacker_profile := attacker
    strategic_risk_outlook :=
      domain ++ " presents "
        ++ (if score < 50 then "elevated" else if score < 75 then "moderate" else "low")
        ++ " organizational risk across " ++ toString total ++ " discovered assets."
    priority_improvements := improvements.take 3
    assessment_basis :=
      [toString total ++ " assets analyzed, avg risk " ++ toString avg,
       "Severity: " ++ toString (pd.countCritical, pd.countHigh, pd.countMedium,
         pd.countLow, pd.countInformational),
       "Data completeness: " ++ completeness]
    confidence_score :=
      pyRound2 (if total ≥ 5 ∧ completeness = "comprehensive" then 3/4
        else if total ≥ 3 then 11/20 else 2/5) }

/-- `generate_posture_intelligence` of `posture_service.py`, as a
function of the LLM outcome: `none` stands for any Gemini transport
failure, JSON-parse failure or basic-shape schema failure, `some p` for
a parsed payload with the eight typed fields. -/
def generate_posture_intelligence (domain : String) (assets : List Asset)
    (llm : Option PostureLLM) : PostureReport :=
  let pd := preprocess_posture_data domain assets
  if pd.total_assets = 0 then build_deterministic_fallback domain pd
  else
    match llm with
    | none => build_deterministic_fallback domain pd
    | some p =>
      if validate_posture_schema p then enforce_scoring_rules p pd
      else build_deterministic_fallback domain pd

/-- The position of a stage in the kill-chain order `Initial Access →
Privilege Escalation → Lateral Movement → Data Exfiltration`. -/
def stageRank (stage : String) : ℕ :=
  if stage = "Initial Access" then 0
  else if stage = "Privilege Escalation" then 1
  else if stage = "Lateral Movement" then 2
  else 3

/-- A placeholder step (for `List.headD` in concrete witnesses). -/
def defaultStep : AttackStep := ⟨0, "", "", "", "", "", [], 0, none⟩

/-! ### Concrete scenario data for counterexamples and witnesses -/

/-- A one-asset scan whose graph has three steps (Initial Access via the
admin panel, Privilege Escalation via MySQL, Data Exfiltration via the
admin channel). -/
def exGraphAssets : List Asset :=
  [⟨"admin.example.com", "9.9.9.9", [3306], 60, "High",
    [portFactor 3306 "MySQL — database service", adminFactor "admin",
     compound2Factor]⟩]

/-- A realistic scan result with one critical asset: the engine output
for `admin-dev.example.com` with ports 22 and 3306 (score 100,
Critical), plus three web-only assets (score 5, Informational), all on
distinct IPs. -/
def c2Assets : List Asset :=
  [⟨"admin-dev.example.com", "10.0.0.1", [22, 3306], 100, "Critical",
    [portFactor 22 "SSH — remote access service",
     portFactor 3306 "MySQL — database service",
     envFactor "dev", adminFactor "admin", densityFactor 2,
     compound1Factor, compound2Factor]⟩,
   ⟨"www.example.com", "10.0.0.2", [80], 5, "Informational", [noFactorSentinel]⟩,
   ⟨"a.example.com", "10.0.0.3", [80], 5, "Informational", [noFactorSentinel]⟩,
   ⟨"b.example.com", "10.0.0.4", [80], 5, "Informational", [noFactorSentinel]⟩]

/-- A low-risk engine-produced asset (`www.example.com`, port 80 only:
score 5, Informational, sentinel factors). -/
def c3Asset : Asset :=
  ⟨"www.example.com", "1.2.3.4", [80], 5, "Informational", [noFactorSentinel]⟩

/-- A schema-valid Gemini posture payload used to exercise the
enforcement path. -/
def c2LLM : PostureLLM :=
  ⟨50, "Advanced", "Administrative surface", "Targeted",
   "Elevated risk outlook", ["Restrict admin interfaces"],
   ["1 critical asset"], 1/2⟩

/-- The per-asset invariant maintained by the risk engine (§8 of the
spec); `0 ≤ risk_score` is implicit in the `ℕ` score type. -/
def assetInvariant (a : Asset) : Prop :=
  a.risk_score ≤ 100 ∧ a.severity = classify_severity a.risk_score ∧
  a.risk_factors ≠ [] ∧
  (a.risk_factors = [noFactorSentinel] ∨ noFactorSentinel ∉ a.risk_factors)

instance (a : Asset) : Decidable (assetInvariant a) := by
  unfold assetInvariant; infer_instance

/-! ## General lemmas about the helpers -/

theorem pyRound_intCast (n : ℤ) : pyRound (n : ℚ) = n := by
  unfold pyRound
  norm_num

theorem pyRound_le {q : ℚ} {n : ℤ} (h : q ≤ (n : ℚ)) : pyRound q ≤ n := by
  simp only [pyRound]
  have hf : ⌊q⌋ ≤ n := by
    have := Int.floor_le_floor h
    simpa using this
  have hfq : (⌊q⌋ : ℚ) ≤ q := Int.floor_le q
  split_ifs with h1 h2 h3
  · exact hf
  · have : (⌊q⌋ : ℚ) < (n : ℚ) := by linarith
    exact_mod_cast Int.add_one_le_iff.mpr (by exact_mod_cast this)
  · exact hf
  · have hr : q - (⌊q⌋ : ℚ) = 1/2 := le_antisymm (not_lt.mp h2) (not_lt.mp h1)
    have : (⌊q⌋ : ℚ) < (n : ℚ) := by linarith
    exact_mod_cast Int.add_one_le_iff.mpr (by exact_mod_cast this)

theorem pyRound_nonneg {q : ℚ} (h : 0 ≤ q) : 0 ≤ pyRound q := by
  simp only [pyRound]
  have hf : 0 ≤ ⌊q⌋ := Int.floor_nonneg.mpr h
  split_ifs <;> omega

theorem pyRound2_le_of_le {q c : ℚ} {m : ℤ} (hc : c = (m : ℚ) / 100) (h : q ≤ c) :
    pyRound2 q ≤ c := by
  subst hc
  unfold pyRound2
  have h100 : q * 100 ≤ (m : ℚ) := by linarith [h]
  have := pyRound_le h100
  rw [div_le_div_iff_of_pos_right (by norm_num : (0:ℚ) < 100)]
  exact_mod_cast this

theorem pyRound2_nonneg {q : ℚ} (h : 0 ≤ q) : 0 ≤ pyRound2 q := by
  unfold pyRound2
  have : (0 : ℤ) ≤ pyRound (q * 100) := pyRound_nonneg (by positivity)
  positivity

/-- Two strings differing in their first character are different. -/
theorem string_ne_of_head_ne {a b : String} (h : a.data.head? ≠ b.data.head?) :
    a ≠ b :=
  fun e => h (congrArg (fun s => s.data.head?) e)

/-- A left append keeps the head character. -/
theorem append_head_eq (a b : String) {c : Char} (h : a.data.head? = some c) :
    (a ++ b).data.head? = some c := by
  rw [String.data_append, List.head?_append, h]
  rfl

theorem portFactor_ne_sentinel (p : ℕ) (label : String) :
    portFactor p label ≠ noFactorSentinel := by
  apply string_ne_of_head_ne
  rw [portFactor, append_head_eq _ _ (append_head_eq _ _ (append_head_eq _ _
    (append_head_eq _ _ (show ("Port ").data.head? = some 'P' from rfl))))]
  decide

theorem envFactor_ne_sentinel (kw : String) : envFactor kw ≠ noFactorSentinel := by
  apply string_ne_of_head_ne
  rw [envFactor, append_head_eq _ _ (append_head_eq _ _
    (show ("Sensitive lifecycle environment exposed ('").data.head? = some 'S' from rfl))]
  decide

theorem adminFactor_ne_sentinel (kw : String) : adminFactor kw ≠ noFactorSentinel := by
  apply string_ne_of_head_ne
  rw [adminFactor, append_head_eq _ _ (append_head_eq _ _
    (show ("Administrative interface potentially exposed ('").data.head? = some 'A' from rfl))]
  decide

theorem densityFactor_ne_sentinel (n : ℕ) : densityFactor n ≠ noFactorSentinel := by
  apply string_ne_of_head_ne
  rw [densityFactor, append_head_eq _ _ (append_head_eq _ _
    (show ("Multiple services exposed on single host (").data.head? = some 'M' from rfl))]
  decide

theorem sharedFactor_ne_sentinel (n : ℕ) : sharedFactor n ≠ noFactorSentinel := by
  apply string_ne_of_head_ne
  rw [sharedFactor, append_head_eq _ _ (append_head_eq _ _
    (show ("Infrastructure consolidation increases blast radius (").data.head? = some 'I'
      from rfl))]
  decide

theorem sentinel_not_mem_scan (ports : List ℕ) :
    noFactorSentinel ∉ (scanSensitivePorts ports).2.1 := by
  induction ports with
  | nil => simp [scanSensitivePorts]
  | cons p ps ih =>
    simp only [scanSensitivePorts]
    split
    · next w label _ =>
      simp only [List.mem_cons, not_or]
      exact ⟨(portFactor_ne_sentinel p label).symm , ih⟩
    · exact ih

theorem sentinel_not_mem_optMap {o : Option String} {f : String → String}
    (hf : ∀ a, f a ≠ noFactorSentinel) : noFactorSentinel ∉ (o.map f).toList := by
  cases o with
  | none => simp
  | some a => simpa using (hf a).symm

theorem sentinel_not_mem_iteSingleton {c : Prop} [Decidable c] {x : String}
    (hx : x ≠ noFactorSentinel) : noFactorSentinel ∉ (if c then [x] else []) := by
  split
  · simpa using hx.symm
  · simp

/-- No evidence line emitted by Layers 1–3 is the sentinel string. -/
theorem sentinel_not_mem_core (sub : String) (ports : List ℕ) (freq : ℕ) :
    noFactorSentinel ∉ (calculate_risk_core sub ports freq).2 := by
  intro h
  simp only [calculate_risk_core, List.mem_append] at h
  rcases h with ((((((h | h) | h) | h) | h) | h) | h)
  · exact sentinel_not_mem_scan ports h
  · exact sentinel_not_mem_optMap envFactor_ne_sentinel h
  · exact sentinel_not_mem_optMap adminFactor_ne_sentinel h
  · exact sentinel_not_mem_iteSingleton (densityFactor_ne_sentinel _) h
  · exact sentinel_not_mem_iteSingleton (sharedFactor_ne_sentinel _) h
  · exact sentinel_not_mem_iteSingleton (by decide) h
  · exact sentinel_not_mem_iteSingleton (by decide) h

theorem calculate_risk_score_eq (sub : String) (ports : List ℕ) (freq : ℕ) :
    (calculate_risk sub ports freq).1 = min (calculate_risk_core sub ports freq).1 100 := rfl

theorem calculate_risk_severity_eq (sub : String) (ports : List ℕ) (freq : ℕ) :
    (calculate_risk sub ports freq).2.1 =
      classify_severity (calculate_risk sub ports freq).1 := rfl

theorem calculate_risk_factors_eq (sub : String) (ports : List ℕ) (freq : ℕ) :
    (calculate_risk sub ports freq).2.2 =
      if (calculate_risk_core sub ports freq).2.isEmpty then [noFactorSentinel]
      else (calculate_risk_core sub ports freq).2 := rfl

/-! ## Claim theorems -/

/-- **C3.** For every subdomain, port list and `ip_frequency`, the triple
returned by `calculate_risk` satisfies: `risk_score ≤ 100` (the score is
a natural number, so `0 ≤ risk_score` holds by type), the severity is
the threshold classification of the score, and the factor list is
non-empty and holds the sentinel `"No notable risk factors identified"`
exactly when no factor fired (the sentinel never co-occurs with a real
factor).  Moreover `apply_global_posture_adjustment` preserves all of
this for every asset of a list of engine-produced assets (after the
Layer-4 adjustment the appended footprint line is itself a fired factor,
so the sentinel clause becomes: either exactly the sentinel, or some
non-sentinel factor is present). -/
theorem c3_asset_invariants :
    (∀ (sub : String) (ports : List ℕ) (freq : ℕ),
      (calculate_risk sub ports freq).1 ≤ 100 ∧
      (calculate_risk sub ports freq).2.1 =
        classify_severity (calculate_risk sub ports freq).1 ∧
      (calculate_risk sub ports freq).2.2 ≠ [] ∧
      ((calculate_risk sub ports freq).2.2 = [noFactorSentinel] ∨
        noFactorSentinel ∉ (calculate_risk sub ports freq).2.2)) ∧
    (∀ assets : List Asset, (∀ a ∈ assets, assetInvariant a) →
      ∀ a' ∈ apply_global_posture_adjustment assets,
        a'.risk_score ≤ 100 ∧
        a'.severity = classify_severity a'.risk_score ∧
        a'.risk_factors ≠ [] ∧
        (a'.risk_factors = [noFactorSentinel] ∨
          ∃ f ∈ a'.risk_factors, f ≠ noFactorSentinel)) := by
  constructor
  · intro sub ports freq
    refine ⟨Nat.min_le_right _ _, rfl, ?_, ?_⟩
    · rw [calculate_risk_factors_eq]
      by_cases hE : (calculate_risk_core sub ports freq).2.isEmpty = true
      · rw [if_pos hE]; simp
      · rw [if_neg hE]
        intro e
        exact hE (by rw [e]; rfl)
    · rw [calculate_risk_factors_eq]
      by_cases hE : (calculate_risk_core sub ports freq).2.isEmpty = true
      · left; rw [if_pos hE]
      · right; rw [if_neg hE]; exact sentinel_not_mem_core sub ports freq
  · intro assets hInv a' ha'
    simp only [apply_global_posture_adjustment] at ha'
    split at ha'
    · obtain ⟨h1, h2, h3, h4⟩ := hInv a' ha'
      refine ⟨h1, h2, h3, ?_⟩
      rcases h4 with h4 | h4
      · exact Or.inl h4
      · right
        obtain ⟨f, hf⟩ := List.exists_mem_of_ne_nil _ h3
        exact ⟨f, hf, fun e => h4 (e ▸ hf)⟩
    · split at ha'
      · obtain ⟨h1, h2, h3, h4⟩ := hInv a' ha'
        refine ⟨h1, h2, h3, ?_⟩
        rcases h4 with h4 | h4
        · exact Or.inl h4
        · right
          obtain ⟨f, hf⟩ := List.exists_mem_of_ne_nil _ h3
          exact ⟨f, hf, fun e => h4 (e ▸ hf)⟩
      · obtain ⟨a, _, rfl⟩ := List.mem_map.mp ha'
        refine ⟨Nat.min_le_right _ _, rfl, by simp, ?_⟩
        right
        refine ⟨"Broad public service exposure footprint", ?_, by decide⟩
        simp

/-- Witness for C3: the second conjunct applied to the singleton list
`[c3Asset]` (left unchanged by the Layer-4 adjustment), instantiated at
its first output element. -/
theorem c3_asset_invariants_witness :
    ((apply_global_posture_adjustment [c3Asset]).headD c3Asset).risk_score ≤ 100 ∧
    ((apply_global_posture_adjustment [c3Asset]).headD c3Asset).severity
      = classify_severity
          ((apply_global_posture_adjustment [c3Asset]).headD c3Asset).risk_score ∧
    ((apply_global_posture_adjustment [c3Asset]).headD c3Asset).risk_factors ≠ [] ∧
    (((apply_global_posture_adjustment [c3Asset]).headD c3Asset).risk_factors
        = [noFactorSentinel] ∨
      ∃ f ∈ ((apply_global_posture_adjustment [c3Asset]).headD c3Asset).risk_factors,
        f ≠ noFactorSentinel) :=
  c3_asset_invariants.2 [c3Asset] (by decide)
    ((apply_global_posture_adjustment [c3Asset]).headD c3Asset) (by decide)

/-- **C4 counterexample.** On `("api.example.com", [80, 3306], 1)` the
risk score is not 40: the service-density modifier (+8 for 2 open ports)
also fires, which the spec scenario omitted. -/
theorem c4_counterexample :
    (calculate_risk "api.example.com" [80, 3306] 1).1 ≠ 40 := by decide

/-- **C4 (amended).** For `"api.example.com"` with open ports
`[80, 3306]` and `ip_frequency 1`, `calculate_risk` returns risk score
exactly 48 (2 baseline + 35 MySQL + 3 web + 8 density) and severity
`"Medium"`. -/
theorem c4_database_exposed :
    (calculate_risk "api.example.com" [80, 3306] 1).1 = 48 ∧
    (calculate_risk "api.example.com" [80, 3306] 1).2.1 = "Medium" := by decide

/-- **C5.** `apply_global_posture_adjustment` rewrites every asset —
adding exactly +5 (clamped to 100) to its score, re-deriving its
severity from the new score, and appending the broad-exposure evidence
line — if and only if there are more than 8 assets and strictly more
than 50% of them have a non-empty port list; otherwise it returns every
asset completely unchanged. -/
theorem c5_global_adjustment (assets : List Asset) :
    apply_global_posture_adjustment assets =
      (if 8 < assets.length ∧
          assets.length < 2 * (assets.filter (fun a => !a.open_ports.isEmpty)).length then
        assets.map (fun a =>
          { a with
            risk_score := min (a.risk_score + 5) 100
            severity := classify_severity (min (a.risk_score + 5) 100)
            risk_factors := a.risk_factors ++ ["Broad public service exposure footprint"] })
      else assets) := by
  simp only [apply_global_posture_adjustment]
  by_cases h1 : assets.length ≤ 8
  · rw [if_pos h1, if_neg (fun hc => absurd hc.1 (not_lt.mpr h1))]
  · rw [if_neg h1]
    by_cases h2 :
        2 * (assets.filter (fun a => !a.open_ports.isEmpty)).length ≤ assets.length
    · rw [if_pos h2, if_neg (fun hc => absurd hc.2 (not_lt.mpr h2))]
    · rw [if_neg h2, if_pos ⟨not_le.mp h1, not_le.mp h2⟩]

/-- **C6.** When no asset reaches the risk threshold,
`build_attack_graph` returns the fixed safe graph: null entry point,
empty path, overall risk `"Low"`, and the fixed no-viable-path impact
summary. -/
theorem c6_no_viable_path (domain : String) (assets : List Asset) (t : ℕ)
    (h : ∀ a ∈ assets, a.risk_score < t) :
    build_attack_graph domain assets t =
      { entry_point := none, attack_path := [],
        impact_summary := "No viable attack path identified based on current exposure.",
        overall_risk := "Low" } := by
  have hfilter : assets.filter (fun a => decide (t ≤ a.risk_score)) = [] :=
    List.filter_eq_nil_iff.mpr (fun a ha => by
      simp only [decide_eq_true_eq]
      exact Nat.not_le.mpr (h a ha))
  have hc : graphCandidates assets t = [] := by
    unfold graphCandidates sortByScoreDesc
    rw [hfilter]
    rfl
  unfold build_attack_graph
  rw [hc]

/-- Witness for C6: a single low-risk asset (score 5 < 30). -/
theorem c6_no_viable_path_witness :
    build_attack_graph "example.com"
      [⟨"www.example.com", "1.2.3.4", [80], 5, "Informational", [noFactorSentinel]⟩] 30 =
      { entry_point := none, attack_path := [],
        impact_summary := "No viable attack path identified based on current exposure.",
        overall_risk := "Low" } :=
  c6_no_viable_path "example.com" _ 30 (by decide)

/-- **C10.** On an empty asset list `generate_posture_intelligence`
returns the deterministic fallback for every LLM outcome (so the result
never depends on the LLM call), with posture score exactly 85, maturity
`"Advanced"`, attacker profile `"Automated Scanners"` and confidence
0.4. -/
theorem c10_empty_scan (domain : String) (llm : Option PostureLLM) :
    generate_posture_intelligence domain [] llm
        = build_deterministic_fallback domain (preprocess_posture_data domain []) ∧
      (generate_posture_intelligence domain [] llm).posture_score = 85 ∧
      (generate_posture_intelligence domain [] llm).maturity_level = "Advanced" ∧
      (generate_posture_intelligence domain [] llm).likely_attacker_profile
        = "Automated Scanners" ∧
      (generate_posture_intelligence domain [] llm).confidence_score = 2/5 := by
  refine ⟨rfl, rfl, rfl, rfl, ?_⟩
  show pyRound2 (2/5) = 2/5
  norm_num [pyRound2, pyRound]

/-! ### C1 — structural idempotence of the LLM merge -/

theorem stripDetail_setImpactDetail (v : Json) (d : Option String) (l : List AttackStep) :
    (setImpactDetail v d l).map stripDetail = l.map stripDetail := by
  induction l with
  | nil => rfl
  | cons s rest ih =>
    simp only [setImpactDetail]
    split
    · cases d <;> rfl
    · simp only [List.map_cons, ih]

theorem stripDetail_applyAISteps (l : List Json) (path : List AttackStep) :
    (applyAISteps l path).map stripDetail = path.map stripDetail := by
  induction l generalizing path with
  | nil => rfl
  | cons ai rest ih =>
    show (applyAISteps rest _).map stripDetail = _
    rw [ih]
    cases ai with
    | obj kvs =>
      simp only
      cases (Json.obj kvs).get "step" with
      | none => rfl
      | some v => exact stripDetail_setImpactDetail _ _ _
    | null => rfl
    | bool b => rfl
    | num q => rfl
    | str s => rfl
    | arr a => rfl

theorem applyImpactSummary_path (j : Json) (g : AttackGraph) :
    (applyImpactSummary j g).attack_path = g.attack_path ∧
    (applyImpactSummary j g).entry_point = g.entry_point ∧
    (applyImpactSummary j g).overall_risk = g.overall_risk := by
  unfold applyImpactSummary
  split <;> exact ⟨rfl, rfl, rfl⟩

theorem applyMitigationNotes_path (j : Json) (g : AttackGraph) :
    (applyMitigationNotes j g).attack_path = g.attack_path ∧
    (applyMitigationNotes j g).entry_point = g.entry_point ∧
    (applyMitigationNotes j g).overall_risk = g.overall_risk := by
  unfold applyMitigationNotes
  split <;> exact ⟨rfl, rfl, rfl⟩

theorem applyPathDetails_strip (j : Json) (g : AttackGraph) :
    (applyPathDetails j g).attack_path.map stripDetail
        = g.attack_path.map stripDetail ∧
    (applyPathDetails j g).entry_point = g.entry_point ∧
    (applyPathDetails j g).overall_risk = g.overall_risk := by
  unfold applyPathDetails
  split
  · exact ⟨stripDetail_applyAISteps _ _, rfl, rfl⟩
  · exact ⟨rfl, rfl, rfl⟩

theorem applyOverallRisk_path (j : Json) (g : AttackGraph) :
    (applyOverallRisk j g).attack_path = g.attack_path ∧
    (applyOverallRisk j g).entry_point = g.entry_point ∧
    ((applyOverallRisk j g).overall_risk = g.overall_risk ∨
      (applyOverallRisk j g).overall_risk = "Low" ∨
      (applyOverallRisk j g).overall_risk = "Medium" ∨
      (applyOverallRisk j g).overall_risk = "High" ∨
      (applyOverallRisk j g).overall_risk = "Critical") := by
  unfold applyOverallRisk
  split
  · next s _ =>
    split
    · next hs => exact ⟨rfl, rfl, Or.inr (by simpa using hs)⟩
    · exact ⟨rfl, rfl, Or.inl rfl⟩
  · exact ⟨rfl, rfl, Or.inl rfl⟩

/-- **C1.** For every deterministic base graph and every LLM output —
parse failure (`none`) or an arbitrary JSON value, object or not — the
merge of `_parse_simulation_enhancement` returns a graph with exactly as
many steps as the base, preserving every step's eight structural fields
(`step, stage, subdomain, ip, technique, mitre_id, evidence,
confidence_score` — everything except the narrative `impact_detail`) and
the entry point; steps named by the LLM but absent from the base are
ignored; the overall risk either stays the base's or is one of the four
valid levels. -/
theorem c1_merge_structurally_idempotent (base : AttackGraph) (parsed : Option Json) :
    (parse_simulation_enhancement parsed base).attack_path.length
        = base.attack_path.length ∧
    (parse_simulation_enhancement parsed base).attack_path.map stripDetail
        = base.attack_path.map stripDetail ∧
    (parse_simulation_enhancement parsed base).entry_point = base.entry_point ∧
    ((parse_simulation_enhancement parsed base).overall_risk = base.overall_risk ∨
      (parse_simulation_enhancement parsed base).overall_risk = "Low" ∨
      (parse_simulation_enhancement parsed base).overall_risk = "Medium" ∨
      (parse_simulation_enhancement parsed base).overall_risk = "High" ∨
      (parse_simulation_enhancement parsed base).overall_risk = "Critical") := by
  have main : ∀ j : Json,
      (parse_simulation_enhancement (some j) base).attack_path.map stripDetail
          = base.attack_path.map stripDetail ∧
      (parse_simulation_enhancement (some j) base).entry_point = base.entry_point ∧
      ((parse_simulation_enhancement (some j) base).overall_risk = base.overall_risk ∨
        (parse_simulation_enhancement (some j) base).overall_risk = "Low" ∨
        (parse_simulation_enhancement (some j) base).overall_risk = "Medium" ∨
        (parse_simulation_enhancement (some j) base).overall_risk = "High" ∨
        (parse_simulation_enhancement (some j) base).overall_risk = "Critical") := by
    intro j
    cases j with
    | obj kvs =>
      have hdef : parse_simulation_enhancement (some (Json.obj kvs)) base
          = applyOverallRisk (Json.obj kvs) (applyPathDetails (Json.obj kvs)
              (applyMitigationNotes (Json.obj kvs)
                (applyImpactSummary (Json.obj kvs) base))) := rfl
      rw [hdef]
      obtain ⟨e1p, e1e, e1r⟩ := applyImpactSummary_path (Json.obj kvs) base
      obtain ⟨e2p, e2e, e2r⟩ := applyMitigationNotes_path (Json.obj kvs)
        (applyImpactSummary (Json.obj kvs) base)
      obtain ⟨e3p, e3e, e3r⟩ := applyPathDetails_strip (Json.obj kvs)
        (applyMitigationNotes (Json.obj kvs) (applyImpactSummary (Json.obj kvs) base))
      obtain ⟨e4p, e4e, e4r⟩ := applyOverallRisk_path (Json.obj kvs)
        (applyPathDetails (Json.obj kvs) (applyMitigationNotes (Json.obj kvs)
          (applyImpactSummary (Json.obj kvs) base)))
      refine ⟨?_, ?_, ?_⟩
      · rw [e4p, e3p, e2p, e1p]
      · rw [e4e, e3e, e2e, e1e]
      · rcases e4r with h | h
        · exact Or.inl (by rw [h, e3r, e2r, e1r])
        · exact Or.inr h
    | null => exact ⟨rfl, rfl, Or.inl rfl⟩
    | bool b => exact ⟨rfl, rfl, Or.inl rfl⟩
    | num q => exact ⟨rfl, rfl, Or.inl rfl⟩
    | str s => exact ⟨rfl, rfl, Or.inl rfl⟩
    | arr a => exact ⟨rfl, rfl, Or.inl rfl⟩
  cases parsed with
  | none => exact ⟨rfl, rfl, rfl, Or.inl rfl⟩
  | some j =>
    obtain ⟨hmap, hentry, hrisk⟩ := main j
    refine ⟨?_, hmap, hentry, hrisk⟩
    have := congrArg List.length hmap
    simpa using this

/-! ### C2 — posture enforcement for critical assets -/

theorem preprocess_total_assets (domain : String) (assets : List Asset)
    (hne : assets ≠ []) :
    (preprocess_posture_data domain assets).total_assets = assets.length := by
  unfold preprocess_posture_data
  rw [if_neg (fun h => hne (List.length_eq_zero.mp h))]

theorem preprocess_critical_pos (domain : String) (assets : List Asset)
    (hne : assets ≠ []) (hcrit : ∃ a ∈ assets, 80 ≤ a.risk_score) :
    0 < (preprocess_posture_data domain assets).critical_risk_count := by
  unfold preprocess_posture_data
  rw [if_neg (fun h => hne (List.length_eq_zero.mp h))]
  show 0 < (assets.map (·.risk_score)).countP (fun s => decide (80 ≤ s))
  rw [List.countP_pos_iff]
  obtain ⟨a, ha, hs⟩ := hcrit
  exact ⟨a.risk_score, List.mem_map_of_mem _ ha, by simpa using hs⟩

theorem preprocess_low_ne_total (domain : String) (assets : List Asset)
    (hne : assets ≠ []) (hcrit : ∃ a ∈ assets, 80 ≤ a.risk_score) :
    (preprocess_posture_data domain assets).low_risk_count ≠
      (preprocess_posture_data domain assets).total_assets := by
  unfold preprocess_posture_data
  rw [if_neg (fun h => hne (List.length_eq_zero.mp h))]
  show (assets.map (·.risk_score)).countP (fun s => decide (s < 30)) ≠ assets.length
  intro he
  have hlenm : (assets.map (·.risk_score)).length = assets.length := List.length_map _ _
  have hall := List.countP_eq_length.mp (by rw [he, hlenm])
  obtain ⟨a, ha, hs⟩ := hcrit
  have := hall a.risk_score (List.mem_map_of_mem _ ha)
  simp only [decide_eq_true_eq] at this
  omega

theorem determine_maturity_mem (s : ℤ) (pd : PostureData)
    (h : 0 < pd.critical_risk_count) :
    determine_maturity s pd = "Basic" ∨ determine_maturity s pd = "Developing" := by
  unfold determine_maturity
  rw [if_pos h]
  split_ifs
  · exact Or.inr rfl
  · exact Or.inl rfl

theorem enforce_maturity_eq (p : PostureLLM) (pd : PostureData) :
    (enforce_scoring_rules p pd).maturity_level =
      determine_maturity (enforce_scoring_rules p pd).posture_score pd := rfl

theorem fallback_maturity_eq (domain : String) (pd : PostureData) :
    (build_deterministic_fallback domain pd).maturity_level =
      determine_maturity (calculate_deterministic_posture_score pd) pd := rfl

theorem enforce_posture_le_45 (p : PostureLLM) (pd : PostureData)
    (hcrit : 0 < pd.critical_risk_count)
    (hlow : pd.low_risk_count ≠ pd.total_assets) :
    (enforce_scoring_rules p pd).posture_score ≤ 45 := by
  have hle : ∀ q : ℚ, q ≤ 45 → max 0 (min 100 (pyRound q)) ≤ 45 := by
    intro q hq
    have h1 : pyRound q ≤ 45 := pyRound_le (by exact_mod_cast hq)
    omega
  show max 0 (min 100 (pyRound _)) ≤ 45
  rw [if_pos hcrit, if_neg (fun hc => hlow hc.2)]
  split_ifs with h2
  · exact hle _ (le_trans (min_le_left _ _) (min_le_right _ _))
  · exact hle _ (min_le_right _ _)

/-- **C2 counterexample.** On the realistic four-asset scan `c2Assets`
(one asset scored 100/Critical by the engine, three scored 5), the
deterministic fallback path (LLM failure) returns posture score 85 > 45:
the fallback equals the deterministic anchor and is not passed through
`_enforce_scoring_rules`, so the claimed bound fails on that return
path.  The first conjuncts check that the scenario satisfies the
claim's hypotheses and that every asset is a genuine engine output. -/
theorem c2_counterexample :
    c2Assets ≠ [] ∧
    (∃ a ∈ c2Assets, 80 ≤ a.risk_score) ∧
    (∀ a ∈ c2Assets,
      (a.risk_score, a.severity, a.risk_factors)
        = calculate_risk a.subdomain a.open_ports 1) ∧
    45 < (generate_posture_intelligence "example.com" c2Assets none).posture_score := by
  refine ⟨by decide, by decide, by decide, by with_unfolding_all decide⟩

/-- **C2 (amended).** For every domain, non-empty asset list with a
critical asset (risk score ≥ 80) and LLM outcome, the returned maturity
level is `"Basic"` or `"Developing"` on every return path; the bound
`posture_score ≤ 45` holds on the enforcement path, i.e. whenever the
LLM output parsed and passed schema validation.  (On the deterministic
fallback path the score equals the deterministic anchor and may exceed
45 — see the counterexample.) -/
theorem c2_critical_posture (domain : String) (assets : List Asset)
    (llm : Option PostureLLM) (hne : assets ≠ [])
    (hcrit : ∃ a ∈ assets, 80 ≤ a.risk_score) :
    ((generate_posture_intelligence domain assets llm).maturity_level = "Basic" ∨
      (generate_posture_intelligence domain assets llm).maturity_level = "Developing") ∧
    (∀ p, llm = some p → validate_posture_schema p = true →
      (generate_posture_intelligence domain assets llm).posture_score ≤ 45) := by
  have hlen : ¬((preprocess_posture_data domain assets).total_assets = 0) := by
    rw [preprocess_total_assets domain assets hne]
    exact fun h => hne (List.length_eq_zero.mp h)
  have hcp := preprocess_critical_pos domain assets hne hcrit
  have hlo := preprocess_low_ne_total domain assets hne hcrit
  cases llm with
  | none =>
    have hgen : generate_posture_intelligence domain assets none
        = build_deterministic_fallback domain (preprocess_posture_data domain assets) := by
      unfold generate_posture_intelligence
      rw [if_neg hlen]
    rw [hgen]
    refine ⟨?_, fun p hp => by simp at hp⟩
    rw [fallback_maturity_eq]
    exact determine_maturity_mem _ _ hcp
  | some p =>
    by_cases hv : validate_posture_schema p = true
    · have hgen : generate_posture_intelligence domain assets (some p)
          = enforce_scoring_rules p (preprocess_posture_data domain assets) := by
        unfold generate_posture_intelligence
        rw [if_neg hlen]
        show (if validate_posture_schema p = true then _ else _) = _
        rw [if_pos hv]
      rw [hgen]
      refine ⟨?_, fun p' hp' _ => ?_⟩
      · rw [enforce_maturity_eq]
        exact determine_maturity_mem _ _ hcp
      · exact enforce_posture_le_45 p _ hcp hlo
    · have hgen : generate_posture_intelligence domain assets (some p)
          = build_deterministic_fallback domain (preprocess_posture_data domain assets) := by
        unfold generate_posture_intelligence
        rw [if_neg hlen]
        show (if validate_posture_schema p = true then _ else _) = _
        rw [if_neg hv]
      rw [hgen]
      refine ⟨?_, fun p' hp' hval => ?_⟩
      · rw [fallback_maturity_eq]
        exact determine_maturity_mem _ _ hcp
      · exact absurd (Option.some.inj hp' ▸ hval) hv

/-- Witness for C2 (amended): the enforcement path on `c2Assets` with
the schema-valid payload `c2LLM` yields maturity in
{Basic, Developing} and a posture score ≤ 45. -/
theorem c2_critical_posture_witness :
    ((generate_posture_intelligence "example.com" c2Assets (some c2LLM)).maturity_level
        = "Basic" ∨
      (generate_posture_intelligence "example.com" c2Assets (some c2LLM)).maturity_level
        = "Developing") ∧
    (generate_posture_intelligence "example.com" c2Assets (some c2LLM)).posture_score
      ≤ 45 :=
  ⟨(c2_critical_posture "example.com" c2Assets (some c2LLM) (by decide) (by decide)).1,
   (c2_critical_posture "example.com" c2Assets (some c2LLM) (by decide) (by decide)).2
     c2LLM rfl (by with_unfolding_all decide)⟩

/-! ### C7/C8/C9 — attack-graph structure -/

theorem build_attack_graph_path_eq (domain : String) (assets : List Asset) (t : ℕ)
    (c0 : Asset) (rest : List Asset) (h : graphCandidates assets t = c0 :: rest) :
    (build_attack_graph domain assets t).attack_path
      = (graphPreSteps assets (c0 :: rest)).enum.map (fun e => make_step (e.1 + 1) e.2) := by
  unfold build_attack_graph
  rw [h]

theorem build_attack_graph_entry_eq (domain : String) (assets : List Asset) (t : ℕ)
    (c0 : Asset) (rest : List Asset) (h : graphCandidates assets t = c0 :: rest) :
    (build_attack_graph domain assets t).entry_point
      = (match stage1Pick (c0 :: rest) with
         | some a => some a.subdomain
         | none => some c0.subdomain) := by
  unfold build_attack_graph
  rw [h]

theorem build_attack_graph_path_nil (domain : String) (assets : List Asset) (t : ℕ)
    (h : graphCandidates assets t = []) :
    (build_attack_graph domain assets t).attack_path = [] := by
  unfold build_attack_graph
  rw [h]

theorem stage2Keys_mem (a : Asset) : ∀ (ks seen : List String) (ps : PreStep),
    ps ∈ (stage2Keys a ks seen).1 →
      ps.stage = "Privilege Escalation" ∧ ps.asset = a := by
  intro ks
  induction ks with
  | nil => intro seen ps hps; simp [stage2Keys] at hps
  | cons k ks ih =>
    intro seen ps hps
    simp only [stage2Keys] at hps
    split at hps
    · exact ih seen ps hps
    · rcases List.mem_cons.mp hps with h | h
      · subst h; exact ⟨rfl, rfl⟩
      · exact ih _ ps h

theorem stage2Go_mem : ∀ (cands : List Asset) (seen : List String) (ps : PreStep),
    ps ∈ stage2Go cands seen →
      ps.stage = "Privilege Escalation" ∧ ps.asset ∈ cands := by
  intro cands
  induction cands with
  | nil => intro seen ps hps; simp [stage2Go] at hps
  | cons a rest ih =>
    intro seen ps hps
    simp only [stage2Go] at hps
    rcases List.mem_append.mp hps with h | h
    · obtain ⟨h1, h2⟩ := stage2Keys_mem a _ _ ps h
      exact ⟨h1, h2 ▸ List.mem_cons_self a rest⟩
    · obtain ⟨h1, h2⟩ := ih _ ps h
      exact ⟨h1, List.mem_cons_of_mem a h2⟩

theorem mem_opt_map_toList {α β : Type} {o : Option α} {f : α → β} {x : β}
    (hx : x ∈ (o.map f).toList) : ∃ a, o = some a ∧ x = f a := by
  cases o with
  | none => simp at hx
  | some a =>
    simp only [Option.map_some', Option.toList_some, List.mem_singleton] at hx
    exact ⟨a, rfl, hx⟩

theorem stage4Pre_stage (a : Asset) : (stage4Pre a).stage = "Data Exfiltration" := by
  unfold stage4Pre
  split <;> rfl

theorem stage4Pre_asset (a : Asset) : (stage4Pre a).asset = a := by
  unfold stage4Pre
  split <;> rfl

/-- Every emitted pre-step has one of the four stages and draws its
asset from the candidate list. -/
theorem graphPreSteps_mem (assets cands : List Asset) :
    ∀ ps ∈ graphPreSteps assets cands,
      (ps.stage = "Initial Access" ∨ ps.stage = "Privilege Escalation" ∨
        ps.stage = "Lateral Movement" ∨ ps.stage = "Data Exfiltration") ∧
      ps.asset ∈ cands := by
  intro ps hps
  unfold graphPreSteps at hps
  simp only [List.mem_append] at hps
  rcases hps with ((((h | h) | h) | h) | h) | h
  · obtain ⟨a, ha, rfl⟩ := mem_opt_map_toList h
    exact ⟨Or.inl rfl, List.mem_of_find?_eq_some ha⟩
  · obtain ⟨h1, h2⟩ := stage2Go_mem cands [] ps h
    exact ⟨Or.inr (Or.inl h1), h2⟩
  · obtain ⟨a, ha, rfl⟩ := mem_opt_map_toList h
    exact ⟨Or.inr (Or.inr (Or.inl rfl)), List.mem_of_find?_eq_some ha⟩
  · obtain ⟨a, ha, rfl⟩ := mem_opt_map_toList h
    exact ⟨Or.inr (Or.inr (Or.inl rfl)), List.mem_of_find?_eq_some ha⟩
  · obtain ⟨a, ha, rfl⟩ := mem_opt_map_toList h
    exact ⟨Or.inr (Or.inr (Or.inl rfl)), List.mem_of_find?_eq_some ha⟩
  · obtain ⟨a, ha, rfl⟩ := mem_opt_map_toList h
    refine ⟨Or.inr (Or.inr (Or.inr (stage4Pre_stage a))), ?_⟩
    rw [stage4Pre_asset]
    exact List.mem_of_find?_eq_some ha

theorem pairwise_rank_of_bounds {l₁ l₂ : List PreStep} {c : ℕ}
    (p1 : l₁.Pairwise (fun x y => stageRank x.stage ≤ stageRank y.stage))
    (p2 : l₂.Pairwise (fun x y => stageRank x.stage ≤ stageRank y.stage))
    (h1 : ∀ x ∈ l₁, stageRank x.stage ≤ c) (h2 : ∀ y ∈ l₂, c ≤ stageRank y.stage) :
    (l₁ ++ l₂).Pairwise (fun x y => stageRank x.stage ≤ stageRank y.stage) :=
  List.pairwise_append.mpr ⟨p1, p2, fun x hx y hy => le_trans (h1 x hx) (h2 y hy)⟩

theorem pairwise_rank_const {l : List PreStep} {c : ℕ}
    (h : ∀ x ∈ l, stageRank x.stage = c) :
    l.Pairwise (fun x y => stageRank x.stage ≤ stageRank y.stage) := by
  induction l with
  | nil => exact List.Pairwise.nil
  | cons a l ih =>
    refine List.Pairwise.cons ?_ (ih fun x hx => h x (List.mem_cons_of_mem _ hx))
    intro b hb
    rw [h a (List.mem_cons_self _ _), h b (List.mem_cons_of_mem _ hb)]

/-- The pre-step sequence is sorted by stage rank: Initial Access steps
come before Privilege Escalation steps, before Lateral Movement steps,
before Data Exfiltration steps. -/
theorem graphPreSteps_rank_pairwise (assets cands : List Asset) :
    (graphPreSteps assets cands).Pairwise
      (fun x y => stageRank x.stage ≤ stageRank y.stage) := by
  have h1 : ∀ x ∈ ((stage1Pick cands).map stage1Pre).toList, stageRank x.stage = 0 := by
    intro x hx; obtain ⟨a, _, rfl⟩ := mem_opt_map_toList hx; rfl
  have h2 : ∀ x ∈ stage2Go cands [], stageRank x.stage = 1 := by
    intro x hx
    rw [(stage2Go_mem cands [] x hx).1]
    rfl
  have h3a : ∀ x ∈ ((stage3aPick assets cands).map (stage3aPre assets)).toList,
      stageRank x.stage = 2 := by
    intro x hx; obtain ⟨a, _, rfl⟩ := mem_opt_map_toList hx; rfl
  have h3b : ∀ (o : Option Asset), ∀ x ∈ (o.map stage3bPre).toList,
      stageRank x.stage = 2 := by
    intro o x hx; obtain ⟨a, _, rfl⟩ := mem_opt_map_toList hx; rfl
  have h3c : ∀ (o : Option Asset), ∀ x ∈ (o.map stage3cPre).toList,
      stageRank x.stage = 2 := by
    intro o x hx; obtain ⟨a, _, rfl⟩ := mem_opt_map_toList hx; rfl
  have h4 : ∀ (o : Option Asset), ∀ x ∈ (o.map stage4Pre).toList,
      stageRank x.stage = 3 := by
    intro o x hx; obtain ⟨a, _, rfl⟩ := mem_opt_map_toList hx
    rw [stage4Pre_stage]
    rfl
  unfold graphPreSteps
  refine pairwise_rank_of_bounds (c := 3) ?_
    (pairwise_rank_const (h4 _)) ?_ (fun y hy => le_of_eq (h4 _ y hy).symm)
  · refine pairwise_rank_of_bounds (c := 2) ?_
      (pairwise_rank_const (h3c _)) ?_ (fun y hy => le_of_eq (h3c _ y hy).symm)
    · refine pairwise_rank_of_bounds (c := 2) ?_
        (pairwise_rank_const (h3b _)) ?_ (fun y hy => le_of_eq (h3b _ y hy).symm)
      · refine pairwise_rank_of_bounds (c := 2) ?_
          (pairwise_rank_const h3a) ?_ (fun y hy => le_of_eq (h3a y hy).symm)
        · exact pairwise_rank_of_bounds (c := 1) (pairwise_rank_const h1)
            (pairwise_rank_const h2) (fun x hx => by simp [h1 x hx])
            (fun y hy => le_of_eq (h2 y hy).symm)
        · intro x hx
          rcases List.mem_append.mp hx with h | h
          · simp [h1 x h]
          · simp [h2 x h]
      · intro x hx
        rcases List.mem_append.mp hx with h | h
        · rcases List.mem_append.mp h with h' | h'
          · simp [h1 x h']
          · simp [h2 x h']
        · simp [h3a x h]
    · intro x hx
      rcases List.mem_append.mp hx with h | h
      · rcases List.mem_append.mp h with h' | h'
        · rcases List.mem_append.mp h' with h'' | h''
          · simp [h1 x h'']
          · simp [h2 x h'']
        · simp [h3a x h']
      · simp [h3b _ x h]
  · intro x hx
    rcases List.mem_append.mp hx with h | h
    · rcases List.mem_append.mp h with h' | h'
      · rcases List.mem_append.mp h' with h'' | h''
        · rcases List.mem_append.mp h'' with h3 | h3
          · simp [h1 x h3]
          · simp [h2 x h3]
        · simp [h3a x h'']
      · simp [h3b _ x h']
    · simp [h3c _ x h]

/-- **C7.** Every attack path produced by `build_attack_graph` is
stage-monotonic: the `step` numbers are the consecutive integers
1, 2, … (hence strictly increasing), every stage is one of the four
kill-chain stages, and along the path the stage ranks are
non-decreasing — every Initial Access step precedes every Privilege
Escalation step, which precedes every Lateral Movement step, which
precedes every Data Exfiltration step. -/
theorem c7_stage_monotonic (domain : String) (assets : List Asset) (t : ℕ) :
    ∀ (i j : ℕ) (hi : i < (build_attack_graph domain assets t).attack_path.length)
      (hj : j < (build_attack_graph domain assets t).attack_path.length),
      ((build_attack_graph domain assets t).attack_path.get ⟨i, hi⟩).step = i + 1 ∧
      (((build_attack_graph domain assets t).attack_path.get ⟨i, hi⟩).stage
          = "Initial Access" ∨
        ((build_attack_graph domain assets t).attack_path.get ⟨i, hi⟩).stage
          = "Privilege Escalation" ∨
        ((build_attack_graph domain assets t).attack_path.get ⟨i, hi⟩).stage
          = "Lateral Movement" ∨
        ((build_attack_graph domain assets t).attack_path.get ⟨i, hi⟩).stage
          = "Data Exfiltration") ∧
      (i ≤ j →
        stageRank ((build_attack_graph domain assets t).attack_path.get ⟨i, hi⟩).stage
          ≤ stageRank ((build_attack_graph domain assets t).attack_path.get ⟨j, hj⟩).stage) := by
  intro i j hi hj
  cases hcand : graphCandidates assets t with
  | nil =>
    exfalso
    rw [build_attack_graph_path_nil domain assets t hcand] at hi
    exact absurd hi (by simp)
  | cons c0 rest =>
    have hpath := build_attack_graph_path_eq domain assets t c0 rest hcand
    have hlen : (build_attack_graph domain assets t).attack_path.length
        = (graphPreSteps assets (c0 :: rest)).length := by
      rw [hpath]; simp
    have hget : ∀ (k : ℕ) (hk : k < (build_attack_graph domain assets t).attack_path.length),
        (build_attack_graph domain assets t).attack_path.get ⟨k, hk⟩
          = make_step (k + 1) ((graphPreSteps assets (c0 :: rest)).get ⟨k, hlen ▸ hk⟩) := by
      intro k hk
      rw [List.get_of_eq hpath]
      simp [List.get_eq_getElem, List.getElem_map, List.getElem_enum]
    refine ⟨?_, ?_, ?_⟩
    · rw [hget i hi]
      rfl
    · rw [hget i hi]
      exact (graphPreSteps_mem assets (c0 :: rest) _
        (List.get_mem _ i (hlen ▸ hi))).1
    · intro hij
      rw [hget i hi, hget j hj]
      show stageRank ((graphPreSteps assets (c0 :: rest)).get ⟨i, hlen ▸ hi⟩).stage
        ≤ stageRank ((graphPreSteps assets (c0 :: rest)).get ⟨j, hlen ▸ hj⟩).stage
      rcases Nat.eq_or_lt_of_le hij with rfl | hlt
      · exact le_refl _
      · exact List.pairwise_iff_get.mp
          (graphPreSteps_rank_pairwise assets (c0 :: rest))
          ⟨i, hlen ▸ hi⟩ ⟨j, hlen ▸ hj⟩ hlt

/-- Witness for C7: on the one-asset scan `exGraphAssets` the graph has
three steps; steps 1 and 3 are well-numbered and Initial Access comes
before Data Exfiltration. -/
theorem c7_stage_monotonic_witness :
    ((build_attack_graph "example.com" exGraphAssets 30).attack_path.get
        ⟨0, by decide⟩).step = 1 ∧
    stageRank ((build_attack_graph "example.com" exGraphAssets 30).attack_path.get
        ⟨0, by decide⟩).stage
      ≤ stageRank ((build_attack_graph "example.com" exGraphAssets 30).attack_path.get
        ⟨2, by decide⟩).stage :=
  ⟨(c7_stage_monotonic "example.com" exGraphAssets 30 0 2 (by decide) (by decide)).1,
   (c7_stage_monotonic "example.com" exGraphAssets 30 0 2 (by decide) (by decide)).2.2
     (by decide)⟩

theorem compute_confidence_nonneg (a : Asset) : 0 ≤ compute_confidence a := by
  unfold compute_confidence
  apply pyRound2_nonneg
  apply le_min
  · positivity
  · norm_num

theorem compute_confidence_le (a : Asset) : compute_confidence a ≤ 95/100 := by
  unfold compute_confidence
  exact pyRound2_le_of_le (m := 95) (by norm_num) (min_le_right _ _)

/-- **C8.** Every step emitted by `build_attack_graph` draws its
confidence from a source asset of the input list (one that reached the
threshold): `confidence_score =
round(min(risk_score/100 + 0.05·compound_count, 0.95), 2)` where
`compound_count` counts the asset's risk factors matching the three
compound keywords; in particular every confidence score lies in
`[0, 0.95]`. -/
theorem c8_step_confidence (domain : String) (assets : List Asset) (t : ℕ) :
    ∀ s ∈ (build_attack_graph domain assets t).attack_path,
      (∃ a, a ∈ assets ∧ t ≤ a.risk_score ∧ s.subdomain = a.subdomain ∧
        s.confidence_score =
          pyRound2 (min ((a.risk_score : ℚ) / 100 + (compoundCount a : ℚ) * (5/100))
            (95/100))) ∧
      0 ≤ s.confidence_score ∧ s.confidence_score ≤ 95/100 := by
  intro s hs
  cases hcand : graphCandidates assets t with
  | nil =>
    rw [build_attack_graph_path_nil domain assets t hcand] at hs
    exact absurd hs (by simp)
  | cons c0 rest =>
    rw [build_attack_graph_path_eq domain assets t c0 rest hcand] at hs
    obtain ⟨e, he, rfl⟩ := List.mem_map.mp hs
    have hpres : e.2 ∈ graphPreSteps assets (c0 :: rest) :=
      List.snd_mem_of_mem_enum he
    have hmem := (graphPreSteps_mem assets (c0 :: rest) e.2 hpres).2
    have hassets : e.2.asset ∈ assets ∧ t ≤ e.2.asset.risk_score := by
      have h1 : e.2.asset ∈ graphCandidates assets t := hcand ▸ hmem
      unfold graphCandidates sortByScoreDesc at h1
      have h2 := (List.perm_insertionSort _ _).mem_iff.mp h1
      have h3 := List.mem_filter.mp h2
      exact ⟨h3.1, by simpa using h3.2⟩
    exact ⟨⟨e.2.asset, hassets.1, hassets.2, rfl, rfl⟩,
      compute_confidence_nonneg e.2.asset, compute_confidence_le e.2.asset⟩

/-- Witness for C8: the first step of the `exGraphAssets` graph. -/
theorem c8_step_confidence_witness :
    (∃ a, a ∈ exGraphAssets ∧ 30 ≤ a.risk_score ∧
      ((build_attack_graph "example.com" exGraphAssets 30).attack_path.head
          (by decide)).subdomain = a.subdomain ∧
      ((build_attack_graph "example.com" exGraphAssets 30).attack_path.head
          (by decide)).confidence_score =
        pyRound2 (min ((a.risk_score : ℚ) / 100 + (compoundCount a : ℚ) * (5/100))
          (95/100))) ∧
    0 ≤ ((build_attack_graph "example.com" exGraphAssets 30).attack_path.head
        (by decide)).confidence_score ∧
    ((build_attack_graph "example.com" exGraphAssets 30).attack_path.head
        (by decide)).confidence_score ≤ 95/100 :=
  c8_step_confidence "example.com" exGraphAssets 30
    ((build_attack_graph "example.com" exGraphAssets 30).attack_path.head (by decide))
    (List.head_mem _)

/-- **C9.** Whenever at least one asset reaches the threshold, the graph
has a non-null `entry_point` that is the subdomain of a candidate:
the Stage-1 asset's subdomain when a Stage-1 step was emitted, and
otherwise the subdomain of the highest-scoring candidate (the
undocumented fallback `candidates[0]`). -/
theorem c9_entry_point (domain : String) (assets : List Asset) (t : ℕ)
    (h : ∃ a ∈ assets, t ≤ a.risk_score) :
    ∃ c, c ∈ assets ∧ t ≤ c.risk_score ∧
      (build_attack_graph domain assets t).entry_point = some c.subdomain ∧
      (∀ a, stage1Pick (graphCandidates assets t) = some a → c = a) ∧
      (stage1Pick (graphCandidates assets t) = none →
        ∀ b ∈ assets, t ≤ b.risk_score → b.risk_score ≤ c.risk_score) := by
  have hmemassets : ∀ b ∈ graphCandidates assets t, b ∈ assets ∧ t ≤ b.risk_score := by
    intro b hb
    unfold graphCandidates sortByScoreDesc at hb
    have h2 := (List.perm_insertionSort _ _).mem_iff.mp hb
    have h3 := List.mem_filter.mp h2
    exact ⟨h3.1, by simpa using h3.2⟩
  have hmemc : ∀ b ∈ assets, t ≤ b.risk_score → b ∈ graphCandidates assets t := by
    intro b hb hbs
    unfold graphCandidates sortByScoreDesc
    exact (List.perm_insertionSort _ _).mem_iff.mpr
      (List.mem_filter.mpr ⟨hb, by simpa using hbs⟩)
  obtain ⟨a0, ha0, hs0⟩ := h
  cases hcand : graphCandidates assets t with
  | nil =>
    exact absurd (hcand ▸ hmemc a0 ha0 hs0) (by simp)
  | cons c0 rest =>
    have hentry := build_attack_graph_entry_eq domain assets t c0 rest hcand
    cases hpick : stage1Pick (c0 :: rest) with
    | some a =>
      have hain : a ∈ c0 :: rest := by
        unfold stage1Pick at hpick
        exact List.mem_of_find?_eq_some hpick
      obtain ⟨hin, hts⟩ := hmemassets a (hcand ▸ hain)
      refine ⟨a, hin, hts, ?_, ?_, ?_⟩
      · rw [hentry, hpick]
      · intro a' ha'
        exact Option.some.inj ha'
      · intro hnone
        exact absurd hnone (by simp)
    | none =>
      obtain ⟨hin, hts⟩ := hmemassets c0 (hcand ▸ List.mem_cons_self c0 rest)
      refine ⟨c0, hin, hts, ?_, ?_, ?_⟩
      · rw [hentry, hpick]
      · intro a' ha'
        exact absurd ha' (by simp)
      · intro _ b hb hbs
        have hsorted : (graphCandidates assets t).Sorted
            (fun x y : Asset => y.risk_score ≤ x.risk_score) := by
          unfold graphCandidates sortByScoreDesc
          haveI : IsTotal Asset (fun x y : Asset => y.risk_score ≤ x.risk_score) :=
            ⟨fun x y => Nat.le_total y.risk_score x.risk_score⟩
          haveI : IsTrans Asset (fun x y : Asset => y.risk_score ≤ x.risk_score) :=
            ⟨fun x y z hxy hyz => Nat.le_trans hyz hxy⟩
          exact List.sorted_insertionSort _ _
        rw [hcand] at hsorted
        have hbmem := hcand ▸ hmemc b hb hbs
        rcases List.mem_cons.mp hbmem with rfl | hbr
        · exact le_refl _
        · exact List.rel_of_sorted_cons hsorted b hbr

/-- Witness for C9: on `exGraphAssets` the Stage-1 pick exists and the
entry point is its subdomain. -/
theorem c9_entry_point_witness :
    ∃ c, c ∈ exGraphAssets ∧ 30 ≤ c.risk_score ∧
      (build_attack_graph "example.com" exGraphAssets 30).entry_point
        = some c.subdomain ∧
      (∀ a, stage1Pick (graphCandidates exGraphAssets 30) = some a → c = a) ∧
      (stage1Pick (graphCandidates exGraphAssets 30) = none →
        ∀ b ∈ exGraphAssets, 30 ≤ b.risk_score → b.risk_score ≤ c.risk_score) :=
  c9_entry_point "example.com" exGraphAssets 30 (by decide)

end SentinelAI
